import Mathlib

/-!
Shallow embedding of the face-detection component (`src/src/FaceDetector.tsx`)
of the repository.  The component wires webcam frames into an external
face-analysis library on a timer, copies results into local UI state, and
draws overlays on a canvas.  Numbers that are JavaScript `number`s in the
source are modelled as rationals (`ℚ`); the rounding helpers `Math.round`
and `toFixed(2)` are modelled by their ECMAScript definitions (round half
toward positive infinity).  Stateful React code is modelled as explicit
state passing: the component state is a structure, one detection cycle is a
function from state and cycle input to a new state plus the list of canvas
drawing commands it issues, and the timer / settings effects are a step
function over an event alphabet.
-/

namespace FaceDetector

/-- A bounding box of a detected face, in pixel coordinates. -/
structure Box where
  x : ℚ
  y : ℚ
  width : ℚ
  height : ℚ
  deriving DecidableEq

/-- One raw detection returned by the external face-analysis library for one
face: bounding box, landmark points, expression-probability mapping (in the
library's iteration order), age estimate and optional gender label.
`gender = none` models the adapter reporting no (falsy) gender. -/
structure DetectionResult where
  box : Box
  landmarks : List (ℚ × ℚ)
  expressions : List (String × ℚ)
  age : ℚ
  gender : Option String
  deriving DecidableEq

/-- The display-ready record derived from one `DetectionResult`
(`interface FaceData` in the source). -/
structure FaceData where
  gender : String
  age : ℤ
  emotion : String
  expressions : List (String × ℚ)
  deriving DecidableEq

/-- The three mutually exclusive display modes
(`'landmarks' | 'expressions' | 'mesh'`). -/
inductive DisplayMode where
  | landmarks
  | expressions
  | mesh
  deriving DecidableEq

/-- The component's React state hooks, plus `timerActive`, which records
whether a detection interval is currently installed
(`detectionInterval.current`). -/
structure ComponentState where
  isModelLoaded : Bool
  facesDetected : Nat
  detectionEnabled : Bool
  facesData : List FaceData
  displayMode : DisplayMode
  showDetails : Bool
  timerActive : Bool
  deriving DecidableEq

/-- The `useState` initial values of the component; no timer is installed
before the effects run. -/
def initialState : ComponentState :=
  { isModelLoaded := false
    facesDetected := 0
    detectionEnabled := true
    facesData := []
    displayMode := DisplayMode.landmarks
    showDetails := true
    timerActive := false }

/-- Success (`true`) or failure of each of the five model-artifact loads
awaited by `loadModels` via `Promise.all`. -/
structure LoadOutcomes where
  tinyFaceDetector : Bool
  faceLandmark68Net : Bool
  faceRecognitionNet : Bool
  faceExpressionNet : Bool
  ageGenderNet : Bool
  deriving DecidableEq

/-- `Promise.all` of the five loads succeeds iff every single load does. -/
def allLoadsOk (r : LoadOutcomes) : Bool :=
  r.tinyFaceDetector && r.faceLandmark68Net && r.faceRecognitionNet &&
    r.faceExpressionNet && r.ageGenderNet

/-- `loadModels`: on success of all five awaited loads, `setIsModelLoaded(true)`;
on any failure the `catch` block logs (second component `true`) and the state
is left untouched. -/
def loadModels (s : ComponentState) (r : LoadOutcomes) : ComponentState × Bool :=
  if allLoadsOk r then ({ s with isModelLoaded := true }, false) else (s, true)

/-- ECMAScript `Math.round`: the nearest integer, half-way cases rounded
toward positive infinity. -/
def jsRound (q : ℚ) : ℤ := ⌊q + 1 / 2⌋

/-- JavaScript `x || 0` on a number (`detection.age || 0`): a falsy (zero)
value is replaced by the default `0`. -/
def jsOrZero (q : ℚ) : ℚ := if q = 0 then 0 else q

/-- `parseFloat(value.toFixed(2))`: rounding to two decimal places, half-way
cases toward positive infinity (ECMAScript `toFixed` picks the larger
candidate integer numerator on a tie). -/
def round2 (q : ℚ) : ℚ := (⌊q * 100 + 1 / 2⌋ : ℚ) / 100

/-- `getDominantExpression`: fold over `Object.entries(expressions)` keeping
`(maxValue, dominantExpression)`, starting from `(0, '')` and replacing the
accumulator only on a strictly greater value. -/
def getDominantExpression (expressions : List (String × ℚ)) : String :=
  (expressions.foldl
    (fun acc p => if acc.1 < p.2 then (p.2, p.1) else acc)
    ((0 : ℚ), "")).2

/-- Recursive restatement of the `getDominantExpression` fold, carrying the
running maximum and its label; used to reason about the fold. -/
def dominantAux (m : ℚ) (n : String) : List (String × ℚ) → String
  | [] => n
  | p :: rest => if m < p.2 then dominantAux p.2 p.1 rest else dominantAux m n rest

/-- The maximum probability occurring in an expression mapping, bounded below
by the fold's starting value `0`. -/
def maxProb (l : List (String × ℚ)) : ℚ :=
  l.foldr (fun p a => max p.2 a) 0

/-- The fixed `emojiMap` lookup table of `getExpressionEmoji`. -/
def emojiMap : List (String × String) :=
  [("neutral", "😐"), ("happy", "😀"), ("sad", "😔"), ("angry", "😠"),
   ("fearful", "😨"), ("disgusted", "🤢"), ("surprised", "😲")]

/-- `getExpressionEmoji`: `emojiMap[expression] || '❓'`. -/
def getExpressionEmoji (expression : String) : String :=
  (List.lookup expression emojiMap).getD "❓"

/-- The per-detection transform inside `detections.map` of `detectFaces`:
`gender || 'desconocido'`, `Math.round(age || 0)`, the dominant expression,
and each probability re-rounded to two decimals. -/
def toFaceData (d : DetectionResult) : FaceData :=
  { gender := d.gender.getD "desconocido"
    age := jsRound (jsOrZero d.age)
    emotion := getDominantExpression d.expressions
    expressions := d.expressions.map (fun p => (p.1, round2 p.2)) }

/-- The gender half of the canvas info panel's first text line:
`faceData.gender === 'male' ? 'Hombre' : 'Mujer'`. -/
def canvasGenderLabel (face : FaceData) : String :=
  if face.gender = "male" then "Hombre" else "Mujer"

/-- First text line of the canvas info panel:
`` `${faceData.age} años, ${...}` ``. -/
def canvasInfoAgeGender (face : FaceData) : String :=
  toString face.age ++ " años, " ++ canvasGenderLabel face

/-- Second text line of the canvas info panel:
`` `${getExpressionEmoji(faceData.emotion)} ${faceData.emotion}` ``. -/
def canvasInfoEmotion (face : FaceData) : String :=
  getExpressionEmoji face.emotion ++ " " ++ face.emotion

/-- Gender text of the "Información Detallada" list under the video:
`face.gender === 'male' ? 'Hombre' : 'Mujer'`. -/
def detailsListGender (face : FaceData) : String :=
  if face.gender = "male" then "Hombre" else "Mujer"

/-- Canvas drawing commands issued by one detection cycle.  `matchDims` is
`faceapi.matchDimensions`; `drawDetections`, `drawFaceLandmarks` and
`drawFaceExpressions` are opaque external helpers; `filledCircle` is an
`arc` + `fill` pair; `strokeLine` would be a connecting edge between two
points (the source never issues one). -/
inductive DrawCmd where
  | matchDims (w h : ℚ)
  | clearRect (x y w h : ℚ)
  | drawDetections
  | drawFaceLandmarks
  | drawFaceExpressions
  | filledCircle (x y r : ℚ) (color : String)
  | strokeLine (x1 y1 x2 y2 : ℚ)
  | fillRect (x y w h : ℚ) (style : String)
  | fillText (text : String) (x y : ℚ) (font : String)
  deriving DecidableEq

/-- Whether a drawing command clears the canvas. -/
def isClearRect : DrawCmd → Bool
  | DrawCmd.clearRect _ _ _ _ => true
  | _ => false

/-- Whether a drawing command is a filled circle. -/
def isFilledCircle : DrawCmd → Bool
  | DrawCmd.filledCircle _ _ _ _ => true
  | _ => false

/-- Whether a drawing command draws a connecting edge. -/
def isStrokeLine : DrawCmd → Bool
  | DrawCmd.strokeLine _ _ _ _ => true
  | _ => false

/-- The `mesh` branch of `detectFaces`: for every resized detection, every
landmark position is drawn as an `arc(x, y, 2, 0, 2π)` filled with `'#36f'`;
no edge between points is ever stroked. -/
def renderMesh (resized : List DetectionResult) : List DrawCmd :=
  resized.flatMap (fun d =>
    d.landmarks.map (fun pt => DrawCmd.filledCircle pt.1 pt.2 2 "#36f"))

/-- The display-mode-specific drawing of `detectFaces`. -/
def renderModeOverlay (mode : DisplayMode) (resized : List DetectionResult) :
    List DrawCmd :=
  match mode with
  | DisplayMode.landmarks => [DrawCmd.drawFaceLandmarks]
  | DisplayMode.expressions => [DrawCmd.drawFaceExpressions]
  | DisplayMode.mesh => renderMesh resized

/-- The `showDetails` block of `detectFaces`: per face, a translucent
background rectangle above the box and two text lines. -/
def renderDetails (resized : List DetectionResult) (faceDataArray : List FaceData) :
    List DrawCmd :=
  (resized.zip faceDataArray).flatMap (fun pr =>
    [DrawCmd.fillRect pr.1.box.x (pr.1.box.y - 50) pr.1.box.width 50
        "rgba(0, 0, 0, 0.6)",
     DrawCmd.fillText (canvasInfoAgeGender pr.2) (pr.1.box.x + 5)
        (pr.1.box.y - 30) "16px Arial",
     DrawCmd.fillText (canvasInfoEmotion pr.2) (pr.1.box.x + 5)
        (pr.1.box.y - 10) "20px Arial"])

/-- All drawing of one successful cycle, in source order: dimension match,
canvas clear, detection boxes, mode-specific overlay, optional details. -/
def renderCycle (mode : DisplayMode) (details : Bool) (w h : ℚ)
    (resized : List DetectionResult) (faceDataArray : List FaceData) :
    List DrawCmd :=
  DrawCmd.matchDims w h :: DrawCmd.clearRect 0 0 w h :: DrawCmd.drawDetections ::
    (renderModeOverlay mode resized ++
      if details then renderDetails resized faceDataArray else [])

/-- Environment of one `detectFaces` invocation: availability of the video
and canvas refs, the video display size, the outcome of the awaited
`detectAllFaces(...)` chain (`Except.error` models a thrown error), and the
opaque `faceapi.resizeResults` per-detection rescaling. -/
structure CycleInput where
  videoAvailable : Bool
  canvasAvailable : Bool
  displayWidth : ℚ
  displayHeight : ℚ
  result : Except Unit (List DetectionResult)
  resize : DetectionResult → DetectionResult

/-- Result of one `detectFaces` invocation: the component state afterwards,
the canvas commands issued, and whether the `catch` block logged an error. -/
structure CycleOutput where
  state : ComponentState
  draws : List DrawCmd
  errorLogged : Bool
  deriving DecidableEq

/-- `detectFaces`: guard clause on the four preconditions, then
`matchDimensions`; a throw from the awaited detection is caught and logged
with no state published; on success the face count and `FaceData` collection
are replaced wholesale and the overlays are redrawn. -/
def detectFaces (s : ComponentState) (inp : CycleInput) : CycleOutput :=
  if !inp.videoAvailable || !inp.canvasAvailable || !s.isModelLoaded ||
      !s.detectionEnabled then
    ⟨s, [], false⟩
  else
    match inp.result with
    | Except.error _ =>
        ⟨s, [DrawCmd.matchDims inp.displayWidth inp.displayHeight], true⟩
    | Except.ok detections =>
        let faceDataArray := detections.map toFaceData
        let resized := detections.map inp.resize
        ⟨{ s with
            facesDetected := detections.length
            facesData := faceDataArray },
         renderCycle s.displayMode s.showDetails inp.displayWidth
           inp.displayHeight resized faceDataArray,
         false⟩

/-- Events driving the component after mount: completion of the model load,
a firing of the installed interval timer (with its environment), and the
three user settings actions wired to the buttons / select. -/
inductive Event where
  | modelsLoad (r : LoadOutcomes)
  | timerFires (inp : CycleInput)
  | toggleDetection
  | setDisplayMode (m : DisplayMode)
  | toggleShowDetails

/-- The `useEffect` on `[isModelLoaded, detectionEnabled, displayMode,
showDetails]`: it installs an interval exactly when the models are loaded
and detection is enabled, and clears any pending one otherwise (also on
re-run, so a settings change re-arms the timer). -/
def applyTimerEffect (s : ComponentState) : ComponentState :=
  { s with timerActive := s.isModelLoaded && s.detectionEnabled }

/-- One step of the component: state updates followed by the timer effect.
A timer firing runs `detectFaces` only when an interval is installed. -/
def step (s : ComponentState) : Event → ComponentState
  | Event.modelsLoad r => applyTimerEffect (loadModels s r).1
  | Event.timerFires inp =>
      if s.timerActive then (detectFaces s inp).state else s
  | Event.toggleDetection =>
      applyTimerEffect { s with detectionEnabled := !s.detectionEnabled }
  | Event.setDisplayMode m => applyTimerEffect { s with displayMode := m }
  | Event.toggleShowDetails =>
      applyTimerEffect { s with showDetails := !s.showDetails }

/-! ### Concrete fixtures used by the witnesses -/


/-- The expression mapping of the spec's worked example. -/
def exampleExpressions : List (String × ℚ) :=
  [("neutral", 1 / 10), ("happy", 7 / 10), ("sad", 2 / 10)]

/-- A degenerate mapping in which every probability is zero. -/
def zeroExpressions : List (String × ℚ) :=
  [("neutral", 0), ("happy", 0)]

/-- A concrete detection: age 23.6 and a raw probability 0.666667. -/
def exampleDetection : DetectionResult :=
  { box := ⟨40, 60, 100, 100⟩
    landmarks := [(10, 20), (30, 40), (50, 60)]
    expressions := [("neutral", 1 / 10), ("happy", 666667 / 1000000)]
    age := 118 / 5
    gender := some "male" }

/-! ### Fixtures for the state-machine claims -/


/-- A state after a successful load and first successful cycle, in mesh mode. -/
def exampleLoadedState : ComponentState :=
  { isModelLoaded := true
    facesDetected := 1
    detectionEnabled := true
    facesData := [toFaceData exampleDetection]
    displayMode := DisplayMode.mesh
    showDetails := true
    timerActive := true }

/-- A cycle environment whose detection call throws. -/
def errorCycleInput : CycleInput :=
  { videoAvailable := true
    canvasAvailable := true
    displayWidth := 640
    displayHeight := 360
    result := Except.error ()
    resize := id }

/-- A cycle environment whose detection call returns one face. -/
def okCycleInput : CycleInput :=
  { videoAvailable := true
    canvasAvailable := true
    displayWidth := 640
    displayHeight := 360
    result := Except.ok [exampleDetection]
    resize := id }

/-- The same environment with the video ref unavailable. -/
def noVideoInput : CycleInput :=
  { okCycleInput with videoAvailable := false }

/-- One failing load amongst the five. -/
def failOutcomes : LoadOutcomes :=
  { tinyFaceDetector := true
    faceLandmark68Net := false
    faceRecognitionNet := true
    faceExpressionNet := true
    ageGenderNet := true }

/-- Events after a failed model load: a timer firing and two settings changes. -/
def exampleEventsFailLoad : List Event :=
  [Event.modelsLoad failOutcomes, Event.timerFires okCycleInput,
   Event.toggleDetection, Event.setDisplayMode DisplayMode.expressions]

/-- Events after toggling detection off, none of which re-enables it. -/
def exampleEventsNoToggle : List Event :=
  [Event.timerFires okCycleInput, Event.setDisplayMode DisplayMode.landmarks,
   Event.toggleShowDetails]

/-- A detection for which the adapter reports no gender. -/
def unknownGenderDetection : DetectionResult :=
  { exampleDetection with gender := none }

/-! ### Auxiliary lemmas -/


/-- The `getDominantExpression` fold from any accumulator agrees with the
recursive `dominantAux`. -/
theorem getDominantExpression_eq_aux (l : List (String × ℚ)) :
    ∀ (m : ℚ) (n : String),
      (l.foldl (fun acc p => if acc.1 < p.2 then (p.2, p.1) else acc) (m, n)).2
        = dominantAux m n l := by
  induction l with
  | nil => intro m n; rfl
  | cons p rest ih =>
    intro m n
    simp only [List.foldl_cons, dominantAux]
    by_cases h : m < p.2
    · simp only [if_pos h, ih]
    · simp only [if_neg h, ih]

/-- If no value strictly exceeds the running maximum, the running label is
returned unchanged. -/
theorem dominantAux_of_le (l : List (String × ℚ)) :
    ∀ (m : ℚ) (n : String), (∀ p ∈ l, p.2 ≤ m) → dominantAux m n l = n := by
  induction l with
  | nil => intro m n _; rfl
  | cons p rest ih =>
    intro m n h
    have hp : ¬ m < p.2 := not_lt.mpr (h p (List.mem_cons_self p rest))
    simp only [dominantAux, if_neg hp]
    exact ih m n (fun q hq => h q (List.mem_cons_of_mem _ hq))

/-- If `v` bounds every value, exceeds the running maximum, and the first
entry attaining `v` is `p₀`, then the fold returns `p₀`'s label. -/
theorem dominantAux_find (l : List (String × ℚ)) :
    ∀ (m : ℚ) (n : String) (v : ℚ) (p₀ : String × ℚ),
      m < v → (∀ q ∈ l, q.2 ≤ v) →
      List.find? (fun q => decide (q.2 = v)) l = some p₀ →
      dominantAux m n l = p₀.1 := by
  induction l with
  | nil => intro m n v p₀ _ _ hf; simp at hf
  | cons p rest ih =>
    intro m n v p₀ hm hb hf
    by_cases hpv : p.2 = v
    · have hp₀ : p₀ = p := by
        rw [List.find?_cons_of_pos _ (by simpa using hpv)] at hf
        exact (Option.some.inj hf).symm
      subst hp₀
      have hmp : m < p₀.2 := hpv ▸ hm
      simp only [dominantAux, if_pos hmp]
      exact dominantAux_of_le rest p₀.2 p₀.1
        (fun q hq => (hb q (List.mem_cons_of_mem _ hq)).trans_eq hpv.symm)
    · have hf' : List.find? (fun q => decide (q.2 = v)) rest = some p₀ := by
        rw [List.find?_cons_of_neg _ (by simpa using hpv)] at hf
        exact hf
      by_cases hmp : m < p.2
      · have hpv' : p.2 < v :=
          lt_of_le_of_ne (hb p (List.mem_cons_self p rest)) hpv
        simp only [dominantAux, if_pos hmp]
        exact ih p.2 p.1 v p₀ hpv' (fun q hq => hb q (List.mem_cons_of_mem _ hq)) hf'
      · simp only [dominantAux, if_neg hmp]
        exact ih m n v p₀ hm (fun q hq => hb q (List.mem_cons_of_mem _ hq)) hf'

/-- `maxProb` on a cons. -/
theorem maxProb_cons (p : String × ℚ) (l : List (String × ℚ)) :
    maxProb (p :: l) = max p.2 (maxProb l) := rfl

/-- Every value of the mapping is bounded by `maxProb`. -/
theorem le_maxProb (l : List (String × ℚ)) : ∀ p ∈ l, p.2 ≤ maxProb l := by
  induction l with
  | nil => intro p hp; simp at hp
  | cons q rest ih =>
    intro p hp
    rcases List.mem_cons.mp hp with rfl | hp'
    · rw [maxProb_cons]; exact le_max_left _ _
    · rw [maxProb_cons]; exact (ih p hp').trans (le_max_right _ _)

/-- A positive maximum is attained by some entry. -/
theorem maxProb_attained (l : List (String × ℚ)) :
    0 < maxProb l → ∃ p ∈ l, p.2 = maxProb l := by
  induction l with
  | nil => intro h; simp [maxProb] at h
  | cons q rest ih =>
    intro h
    rcases le_or_lt (maxProb rest) q.2 with hle | hlt
    · exact ⟨q, List.mem_cons_self q rest, by rw [maxProb_cons, max_eq_left hle]⟩
    · have hq : maxProb (q :: rest) = maxProb rest := by
        rw [maxProb_cons, max_eq_right hlt.le]
      rw [hq] at h ⊢
      obtain ⟨p, hp, he⟩ := ih h
      exact ⟨p, List.mem_cons_of_mem _ hp, he⟩

/-- `x || 0` is the identity on rationals. -/
theorem jsOrZero_eq (q : ℚ) : jsOrZero q = q := by
  unfold jsOrZero
  split
  · simp_all
  · rfl

/-- `Math.round` lands within one half of its argument. -/
theorem jsRound_near (q : ℚ) : |((jsRound q : ℤ) : ℚ) - q| ≤ 1 / 2 := by
  have h1 : ((⌊q + 1 / 2⌋ : ℤ) : ℚ) ≤ q + 1 / 2 := Int.floor_le _
  have h2 : q + 1 / 2 < ((⌊q + 1 / 2⌋ : ℤ) : ℚ) + 1 := Int.lt_floor_add_one _
  simp only [jsRound]
  rw [abs_le]
  constructor <;> linarith

/-- Two-decimal rounding lands within `1/200` of its argument. -/
theorem round2_near (q : ℚ) : |round2 q - q| ≤ 1 / 200 := by
  have h1 : ((⌊q * 100 + 1 / 2⌋ : ℤ) : ℚ) ≤ q * 100 + 1 / 2 := Int.floor_le _
  have h2 : q * 100 + 1 / 2 < ((⌊q * 100 + 1 / 2⌋ : ℤ) : ℚ) + 1 :=
    Int.lt_floor_add_one _
  simp only [round2]
  rw [abs_le]
  constructor <;> linarith

/-! ### Render and state-machine lemmas -/


/-- Every command of the mesh branch is a radius-2 `#36f` filled circle, and
none is a stroked edge. -/
theorem renderMesh_all_circles (resized : List DetectionResult) :
    ∀ c ∈ renderMesh resized, isFilledCircle c = true ∧ isStrokeLine c = false := by
  intro c hc
  simp only [renderMesh, List.mem_flatMap, List.mem_map] at hc
  obtain ⟨d, -, pt, -, rfl⟩ := hc
  exact ⟨rfl, rfl⟩

/-- The details block issues only rectangles and text. -/
theorem renderDetails_no_circles (resized : List DetectionResult)
    (fda : List FaceData) :
    ∀ c ∈ renderDetails resized fda,
      isFilledCircle c = false ∧ isStrokeLine c = false := by
  intro c hc
  simp only [renderDetails, List.mem_flatMap] at hc
  obtain ⟨pr, -, hc⟩ := hc
  simp only [List.mem_cons, List.not_mem_nil, or_false] at hc
  rcases hc with rfl | rfl | rfl <;> exact ⟨rfl, rfl⟩

/-- The filled circles of a cycle's drawing are exactly those of its
display-mode overlay. -/
theorem renderCycle_filter_circle (mode : DisplayMode) (details : Bool)
    (w h : ℚ) (resized : List DetectionResult) (fda : List FaceData) :
    (renderCycle mode details w h resized fda).filter isFilledCircle
      = (renderModeOverlay mode resized).filter isFilledCircle := by
  have h1 : (renderCycle mode details w h resized fda).filter isFilledCircle
      = ((renderModeOverlay mode resized) ++
          if details then renderDetails resized fda else []).filter
            isFilledCircle := rfl
  rw [h1, List.filter_append]
  have h2 : ((if details then renderDetails resized fda else []).filter
      isFilledCircle) = [] := by
    cases details
    · rfl
    · exact List.filter_eq_nil_iff.mpr (fun c hc => by
        simp [(renderDetails_no_circles resized fda c (by simpa using hc)).1])
  rw [h2, List.append_nil]

/-- The mesh branch's own commands all survive the circle filter. -/
theorem renderMesh_filter (resized : List DetectionResult) :
    (renderMesh resized).filter isFilledCircle = renderMesh resized :=
  List.filter_eq_self.mpr (fun c hc => (renderMesh_all_circles resized c hc).1)

/-- No command of any cycle's drawing strokes a connecting edge. -/
theorem renderCycle_no_lines (mode : DisplayMode) (details : Bool) (w h : ℚ)
    (resized : List DetectionResult) (fda : List FaceData) :
    ((renderCycle mode details w h resized fda).all
      fun c => !isStrokeLine c) = true := by
  rw [List.all_eq_true]
  intro c hc
  simp only [renderCycle, List.mem_cons, List.mem_append] at hc
  rcases hc with rfl | rfl | rfl | hc | hc
  · rfl
  · rfl
  · rfl
  · cases mode with
    | landmarks =>
        simp only [renderModeOverlay, List.mem_singleton] at hc
        subst hc; rfl
    | expressions =>
        simp only [renderModeOverlay, List.mem_singleton] at hc
        subst hc; rfl
    | mesh =>
        have hl := (renderMesh_all_circles resized c
          (by simpa [renderModeOverlay] using hc)).2
        simp [hl]
  · cases details with
    | false => simp at hc
    | true =>
        have hl := (renderDetails_no_circles resized fda c (by simpa using hc)).2
        simp [hl]

/-- A cycle against a state with unloaded models publishes nothing. -/
theorem detectFaces_notLoaded (s : ComponentState) (inp : CycleInput)
    (hs : s.isModelLoaded = false) : (detectFaces s inp).state = s := by
  simp [detectFaces, hs]

/-- A cycle against a state with detection disabled publishes nothing. -/
theorem detectFaces_disabled (s : ComponentState) (inp : CycleInput)
    (hs : s.detectionEnabled = false) : (detectFaces s inp).state = s := by
  simp [detectFaces, hs]

/-- While the models are unloaded and every load event fails, stepping never
loads them and never changes the published face data. -/
theorem stepList_notLoaded (es : List Event) :
    ∀ t : ComponentState, t.isModelLoaded = false →
      (∀ r, Event.modelsLoad r ∈ es → allLoadsOk r = false) →
      (es.foldl step t).isModelLoaded = false ∧
      (es.foldl step t).facesDetected = t.facesDetected ∧
      (es.foldl step t).facesData = t.facesData := by
  induction es with
  | nil => intro t ht _; exact ⟨ht, rfl, rfl⟩
  | cons e rest ih =>
    intro t ht hr
    have hstep : (step t e).isModelLoaded = false ∧
        (step t e).facesDetected = t.facesDetected ∧
        (step t e).facesData = t.facesData := by
      cases e with
      | modelsLoad r =>
          have hfail : allLoadsOk r = false := hr r (List.mem_cons_self _ _)
          simp [step, applyTimerEffect, loadModels, hfail, ht]
      | timerFires inp =>
          have hds := detectFaces_notLoaded t inp ht
          by_cases hta : t.timerActive = true <;> simp [step, hta, hds, ht]
      | toggleDetection => simp [step, applyTimerEffect, ht]
      | setDisplayMode m => simp [step, applyTimerEffect, ht]
      | toggleShowDetails => simp [step, applyTimerEffect, ht]
    rw [List.foldl_cons]
    obtain ⟨h1, h2, h3⟩ := hstep
    obtain ⟨g1, g2, g3⟩ := ih (step t e) h1
      (fun r hr' => hr r (List.mem_cons_of_mem _ hr'))
    exact ⟨g1, g2.trans h2, g3.trans h3⟩

/-- While detection is disabled and no event re-toggles it, stepping never
changes the published face data. -/
theorem stepList_disabled (es : List Event) :
    ∀ t : ComponentState, t.detectionEnabled = false →
      (∀ e ∈ es, e ≠ Event.toggleDetection) →
      (es.foldl step t).detectionEnabled = false ∧
      (es.foldl step t).facesDetected = t.facesDetected ∧
      (es.foldl step t).facesData = t.facesData := by
  induction es with
  | nil => intro t ht _; exact ⟨ht, rfl, rfl⟩
  | cons e rest ih =>
    intro t ht hr
    have hstep : (step t e).detectionEnabled = false ∧
        (step t e).facesDetected = t.facesDetected ∧
        (step t e).facesData = t.facesData := by
      cases e with
      | modelsLoad r =>
          by_cases hall : allLoadsOk r = true <;>
            simp [step, applyTimerEffect, loadModels, hall, ht]
      | timerFires inp =>
          have hds := detectFaces_disabled t inp ht
          by_cases hta : t.timerActive = true <;> simp [step, hta, hds, ht]
      | toggleDetection =>
          exact absurd rfl (hr Event.toggleDetection (List.mem_cons_self _ _))
      | setDisplayMode m => simp [step, applyTimerEffect, ht]
      | toggleShowDetails => simp [step, applyTimerEffect, ht]
    rw [List.foldl_cons]
    obtain ⟨h1, h2, h3⟩ := hstep
    obtain ⟨g1, g2, g3⟩ := ih (step t e) h1
      (fun e' he' => hr e' (List.mem_cons_of_mem _ he'))
    exact ⟨g1, g2.trans h2, g3.trans h3⟩

/-! ### Claims -/


/-- C1: `getDominantExpression` returns the label of the entry with the
strictly greatest probability; on ties it returns the label of the first
entry (in iteration order) attaining the maximum, stated via `List.find?`;
and when every probability is zero it returns the empty label. -/
theorem getDominantExpression_correct (l : List (String × ℚ)) :
    ((∀ p ∈ l, p.2 = 0) → getDominantExpression l = "") ∧
    (∀ p₀ : String × ℚ, 0 < maxProb l →
      List.find? (fun q => decide (q.2 = maxProb l)) l = some p₀ →
      getDominantExpression l = p₀.1) ∧
    (∀ (e : String) (v : ℚ), (e, v) ∈ l → 0 < v →
      (∀ q ∈ l, q.1 ≠ e → q.2 < v) → getDominantExpression l = e) := by
  have hfold : getDominantExpression l = dominantAux 0 "" l :=
    getDominantExpression_eq_aux l 0 ""
  refine ⟨?_, ?_, ?_⟩
  · intro h
    rw [hfold]
    exact dominantAux_of_le l 0 "" (fun p hp => (h p hp).le)
  · intro p₀ hpos hf
    rw [hfold]
    exact dominantAux_find l 0 "" (maxProb l) p₀ hpos (le_maxProb l) hf
  · intro e v hmem hv hlt
    have hvM : v ≤ maxProb l := le_maxProb l (e, v) hmem
    have hMpos : 0 < maxProb l := lt_of_lt_of_le hv hvM
    obtain ⟨p', hp', hpe⟩ := maxProb_attained l hMpos
    have hsome : (List.find? (fun q => decide (q.2 = maxProb l)) l).isSome := by
      rw [List.find?_isSome]
      exact ⟨p', hp', by simpa using hpe⟩
    obtain ⟨p₀, hf⟩ := Option.isSome_iff_exists.mp hsome
    have hp₀mem : p₀ ∈ l := List.mem_of_find?_eq_some hf
    have hp₀v : p₀.2 = maxProb l := by simpa using List.find?_some hf
    have hp₀e : p₀.1 = e := by
      by_contra hne
      have hcon := hlt p₀ hp₀mem hne
      rw [hp₀v] at hcon
      exact lt_irrefl v (lt_of_le_of_lt hvM hcon)
    rw [hfold, ← hp₀e]
    exact dominantAux_find l 0 "" (maxProb l) p₀ hMpos (le_maxProb l) hf

/-- Witness for C1: on `{neutral: 0.1, happy: 0.7, sad: 0.2}` the dominant
expression is `"happy"`, and on an all-zero mapping it is the empty label. -/
theorem getDominantExpression_correct_witness :
    getDominantExpression exampleExpressions = "happy" ∧
    getDominantExpression zeroExpressions = "" :=
  ⟨(getDominantExpression_correct exampleExpressions).2.1 ("happy", 7 / 10)
      (by norm_num [exampleExpressions, maxProb])
      (by norm_num [exampleExpressions, maxProb, List.find?]),
   (getDominantExpression_correct zeroExpressions).1
      (by intro p hp
          rcases List.mem_cons.mp hp with rfl | hp'
          · rfl
          · rcases List.mem_cons.mp hp' with rfl | hp''
            · rfl
            · simp at hp'')⟩

/-- C5: the published age is the age estimate rounded to the nearest integer
(within one half, `Math.round` semantics), and the published expression
mapping is the raw mapping with every value rounded to two decimal places
(an integer number of hundredths within `1/200` of the raw value). -/
theorem faceData_rounding (d : DetectionResult) :
    |(((toFaceData d).age : ℤ) : ℚ) - d.age| ≤ 1 / 2 ∧
    (toFaceData d).expressions
      = d.expressions.map (fun p => (p.1, round2 p.2)) ∧
    ∀ (e : String) (v : ℚ), (e, v) ∈ d.expressions →
      (e, round2 v) ∈ (toFaceData d).expressions ∧
      |round2 v - v| ≤ 1 / 200 ∧ ∃ k : ℤ, round2 v = (k : ℚ) / 100 := by
  refine ⟨?_, rfl, ?_⟩
  · have hage : (toFaceData d).age = jsRound d.age := by
      simp only [toFaceData, jsOrZero_eq]
    rw [hage]
    exact jsRound_near d.age
  · intro e v hmem
    refine ⟨?_, round2_near v, ⟨⌊v * 100 + 1 / 2⌋, rfl⟩⟩
    simp only [toFaceData]
    exact List.mem_map.mpr ⟨(e, v), hmem, rfl⟩

/-- Witness for C5: an age estimate of 23.6 is published as 24, and a raw
probability 0.666667 is published as 0.67. -/
theorem faceData_rounding_witness :
    |(((toFaceData exampleDetection).age : ℤ) : ℚ) - exampleDetection.age| ≤ 1 / 2 ∧
    (toFaceData exampleDetection).age = 24 ∧
    ("happy", round2 (666667 / 1000000)) ∈ (toFaceData exampleDetection).expressions ∧
    round2 (666667 / 1000000) = 67 / 100 :=
  ⟨(faceData_rounding exampleDetection).1,
   by norm_num [toFaceData, exampleDetection, jsRound, jsOrZero],
   ((faceData_rounding exampleDetection).2.2 "happy" (666667 / 1000000)
      (by norm_num [exampleDetection])).1,
   by norm_num [round2]⟩

/-- C6: the emoji mapping is a closed lookup over exactly the 7 known
expression categories, mapping each to its glyph (in particular `"happy"` to
😀), and every other input string to the fallback glyph ❓. -/
theorem getExpressionEmoji_correct :
    emojiMap.map Prod.fst
      = ["neutral", "happy", "sad", "angry", "fearful", "disgusted",
         "surprised"] ∧
    getExpressionEmoji "neutral" = "😐" ∧
    getExpressionEmoji "happy" = "😀" ∧
    getExpressionEmoji "sad" = "😔" ∧
    getExpressionEmoji "angry" = "😠" ∧
    getExpressionEmoji "fearful" = "😨" ∧
    getExpressionEmoji "disgusted" = "🤢" ∧
    getExpressionEmoji "surprised" = "😲" ∧
    ∀ s : String, s ∉ emojiMap.map Prod.fst → getExpressionEmoji s = "❓" := by
  refine ⟨rfl, by decide, by decide, by decide, by decide, by decide, by decide,
    by decide, ?_⟩
  intro s h
  simp only [emojiMap, List.map_cons, List.map_nil, List.mem_cons, not_or,
    List.not_mem_nil] at h
  obtain ⟨h1, h2, h3, h4, h5, h6, h7, -⟩ := h
  have e1 : (s == "neutral") = false := beq_eq_false_iff_ne.mpr h1
  have e2 : (s == "happy") = false := beq_eq_false_iff_ne.mpr h2
  have e3 : (s == "sad") = false := beq_eq_false_iff_ne.mpr h3
  have e4 : (s == "angry") = false := beq_eq_false_iff_ne.mpr h4
  have e5 : (s == "fearful") = false := beq_eq_false_iff_ne.mpr h5
  have e6 : (s == "disgusted") = false := beq_eq_false_iff_ne.mpr h6
  have e7 : (s == "surprised") = false := beq_eq_false_iff_ne.mpr h7
  simp [getExpressionEmoji, emojiMap, List.lookup, e1, e2, e3, e4, e5, e6, e7]

/-- Witness for C6: `"confused"` is not a known category and maps to ❓. -/
theorem getExpressionEmoji_correct_witness :
    getExpressionEmoji "confused" = "❓" :=
  getExpressionEmoji_correct.2.2.2.2.2.2.2.2 "confused" (by decide)



/-- C2: when the awaited detection call throws, the cycle leaves the whole
component state (face count and `FaceData` collection) unchanged and issues
no canvas-clearing command, so the last successful overlay persists. -/
theorem detectionFailure_preservesState (s : ComponentState) (inp : CycleInput)
    (herr : inp.result = Except.error ()) :
    (detectFaces s inp).state = s ∧
    ((detectFaces s inp).draws.all fun c => !isClearRect c) = true := by
  unfold detectFaces
  split
  · exact ⟨rfl, rfl⟩
  · rw [herr]
    exact ⟨rfl, rfl⟩

/-- Witness for C2. -/
theorem detectionFailure_preservesState_witness :
    (detectFaces exampleLoadedState errorCycleInput).state = exampleLoadedState ∧
    ((detectFaces exampleLoadedState errorCycleInput).draws.all
      fun c => !isClearRect c) = true :=
  detectionFailure_preservesState exampleLoadedState errorCycleInput rfl

/-- C3: a successful cycle publishes exactly one `FaceData` per detection
returned by the library that cycle, and replaces the count and the
collection wholesale: the new collection is determined by the new detections
alone, with no contribution from the previous state. -/
theorem successCycle_wholesale (s : ComponentState) (inp : CycleInput)
    (detections : List DetectionResult)
    (hok : inp.result = Except.ok detections)
    (hv : inp.videoAvailable = true) (hcv : inp.canvasAvailable = true)
    (hm : s.isModelLoaded = true) (hd : s.detectionEnabled = true) :
    (detectFaces s inp).state.facesDetected = detections.length ∧
    (detectFaces s inp).state.facesData = detections.map toFaceData ∧
    (detectFaces s inp).state.facesData.length = detections.length := by
  simp [detectFaces, hok, hv, hcv, hm, hd]

/-- Witness for C3. -/
theorem successCycle_wholesale_witness :
    (detectFaces exampleLoadedState okCycleInput).state.facesDetected = 1 ∧
    (detectFaces exampleLoadedState okCycleInput).state.facesData
      = [toFaceData exampleDetection] :=
  ⟨(successCycle_wholesale exampleLoadedState okCycleInput [exampleDetection]
      rfl rfl rfl rfl rfl).1,
   (successCycle_wholesale exampleLoadedState okCycleInput [exampleDetection]
      rfl rfl rfl rfl rfl).2.1⟩

/-- C4: when any of the four preconditions fails, the cycle is a silent
no-op: same state, no drawing, no error logged. -/
theorem preconditionFail_noop (s : ComponentState) (inp : CycleInput)
    (h : inp.videoAvailable = false ∨ inp.canvasAvailable = false ∨
      s.isModelLoaded = false ∨ s.detectionEnabled = false) :
    detectFaces s inp = ⟨s, [], false⟩ := by
  rcases h with h | h | h | h <;> simp [detectFaces, h]

/-- Witness for C4: no video frame available. -/
theorem preconditionFail_noop_witness :
    detectFaces exampleLoadedState noVideoInput
      = ⟨exampleLoadedState, [], false⟩ :=
  preconditionFail_noop exampleLoadedState noVideoInput (Or.inl rfl)

/-- C7: in mesh mode a successful cycle draws, for every resized detection,
each landmark point as a filled circle of radius 2 in color `#36f` — the
circles it draws are exactly those — and strokes no connecting edge. -/
theorem meshMode_points_only (s : ComponentState) (inp : CycleInput)
    (detections : List DetectionResult)
    (hok : inp.result = Except.ok detections)
    (hv : inp.videoAvailable = true) (hcv : inp.canvasAvailable = true)
    (hm : s.isModelLoaded = true) (hd : s.detectionEnabled = true)
    (hmode : s.displayMode = DisplayMode.mesh) :
    (detectFaces s inp).draws.filter isFilledCircle
      = (detections.map inp.resize).flatMap
          (fun d => d.landmarks.map
            (fun pt => DrawCmd.filledCircle pt.1 pt.2 2 "#36f")) ∧
    ((detectFaces s inp).draws.all fun c => !isStrokeLine c) = true := by
  have hdraws : (detectFaces s inp).draws
      = renderCycle DisplayMode.mesh s.showDetails inp.displayWidth
          inp.displayHeight (detections.map inp.resize)
          (detections.map toFaceData) := by
    simp [detectFaces, hok, hv, hcv, hm, hd, hmode]
  rw [hdraws]
  exact ⟨(renderCycle_filter_circle DisplayMode.mesh s.showDetails
            inp.displayWidth inp.displayHeight (detections.map inp.resize)
            (detections.map toFaceData)).trans
          (renderMesh_filter (detections.map inp.resize)),
         renderCycle_no_lines DisplayMode.mesh s.showDetails inp.displayWidth
           inp.displayHeight (detections.map inp.resize)
           (detections.map toFaceData)⟩

/-- Witness for C7: the three landmark points of the example face become
exactly three radius-2 `#36f` circles, with no stroked edge. -/
theorem meshMode_points_only_witness :
    (detectFaces exampleLoadedState okCycleInput).draws.filter isFilledCircle
      = [DrawCmd.filledCircle 10 20 2 "#36f",
         DrawCmd.filledCircle 30 40 2 "#36f",
         DrawCmd.filledCircle 50 60 2 "#36f"] ∧
    ((detectFaces exampleLoadedState okCycleInput).draws.all
      fun c => !isStrokeLine c) = true := by
  obtain ⟨h1, h2⟩ := meshMode_points_only exampleLoadedState okCycleInput
    [exampleDetection] rfl rfl rfl rfl rfl rfl
  exact ⟨h1.trans rfl, h2⟩

/-- C8: `isModelLoaded` can only become true through all five loads
succeeding; on any failure the error is logged and the state is unchanged;
and every trace from mount whose load events all fail keeps the models
unloaded and the published data empty — no cycle ever publishes anything. -/
theorem modelLoadFailure_gate (s : ComponentState) (r : LoadOutcomes)
    (es : List Event)
    (hes : ∀ r', Event.modelsLoad r' ∈ es → allLoadsOk r' = false) :
    ((loadModels s r).1.isModelLoaded = true →
      s.isModelLoaded = true ∨ allLoadsOk r = true) ∧
    (allLoadsOk r = false → loadModels s r = (s, true)) ∧
    (es.foldl step initialState).isModelLoaded = false ∧
    (es.foldl step initialState).facesDetected = 0 ∧
    (es.foldl step initialState).facesData = [] := by
  obtain ⟨g1, g2, g3⟩ := stepList_notLoaded es initialState rfl hes
  refine ⟨?_, ?_, g1, g2, g3⟩
  · intro hload
    by_cases hall : allLoadsOk r = true
    · exact Or.inr hall
    · left
      have hnone : loadModels s r = (s, true) := by
        simp [loadModels, hall]
      rw [hnone] at hload
      exact hload
  · intro hfail
    simp [loadModels, hfail]

/-- Witness for C8: with the landmark model failing to load, a timer firing
and settings changes never load the models nor publish any face. -/
theorem modelLoadFailure_gate_witness :
    allLoadsOk failOutcomes = false ∧
    loadModels initialState failOutcomes = (initialState, true) ∧
    (exampleEventsFailLoad.foldl step initialState).isModelLoaded = false ∧
    (exampleEventsFailLoad.foldl step initialState).facesData = [] := by
  have h := modelLoadFailure_gate initialState failOutcomes
    exampleEventsFailLoad ?hes
  · exact ⟨rfl, h.2.1 rfl, h.2.2.1, h.2.2.2.2⟩
  case hes =>
    intro r' hmem
    simp only [exampleEventsFailLoad, List.mem_cons, List.not_mem_nil,
      or_false] at hmem
    rcases hmem with h1 | h1 | h1 | h1
    · cases h1; rfl
    · exact Event.noConfusion h1
    · exact Event.noConfusion h1
    · exact Event.noConfusion h1

/-- C9: toggling detection off cancels the pending timer, and however many
further events occur — timer firings, display-mode or details changes — the
published face count and collection never change until a re-toggle. -/
theorem toggleOff_freezes (s : ComponentState) (hs : s.detectionEnabled = true)
    (es : List Event) (hes : ∀ e ∈ es, e ≠ Event.toggleDetection) :
    (step s Event.toggleDetection).timerActive = false ∧
    (step s Event.toggleDetection).facesDetected = s.facesDetected ∧
    (step s Event.toggleDetection).facesData = s.facesData ∧
    (es.foldl step (step s Event.toggleDetection)).facesDetected
      = s.facesDetected ∧
    (es.foldl step (step s Event.toggleDetection)).facesData = s.facesData := by
  have hoff : (step s Event.toggleDetection).detectionEnabled = false := by
    simp [step, applyTimerEffect, hs]
  have hta : (step s Event.toggleDetection).timerActive = false := by
    simp [step, applyTimerEffect, hs]
  obtain ⟨-, g2, g3⟩ := stepList_disabled es _ hoff hes
  exact ⟨hta, rfl, rfl, g2, g3⟩

/-- Witness for C9: from a loaded, running state, after toggling off, a
timer firing and settings changes leave the published data unchanged. -/
theorem toggleOff_freezes_witness :
    (step exampleLoadedState Event.toggleDetection).timerActive = false ∧
    (exampleEventsNoToggle.foldl step
        (step exampleLoadedState Event.toggleDetection)).facesData
      = exampleLoadedState.facesData := by
  have h := toggleOff_freezes exampleLoadedState rfl exampleEventsNoToggle ?hne
  · exact ⟨h.1, h.2.2.2.2⟩
  case hne =>
    intro e he
    simp only [exampleEventsNoToggle, List.mem_cons, List.not_mem_nil,
      or_false] at he
    rcases he with rfl | rfl | rfl
    · exact fun hcon => Event.noConfusion hcon
    · exact fun hcon => Event.noConfusion hcon
    · exact fun hcon => Event.noConfusion hcon

/-- C10: both the canvas info panel and the details list label a face
`"Hombre"` exactly when its stored gender is `"male"` and `"Mujer"` for any
other stored value; the `"desconocido"` fallback stored for a
gender-less detection is therefore displayed as `"Mujer"`, never as
unknown. -/
theorem genderDisplay_correct (face : FaceData) (d : DetectionResult)
    (hg : d.gender = none) :
    (canvasGenderLabel face = "Hombre" ↔ face.gender = "male") ∧
    (detailsListGender face = "Hombre" ↔ face.gender = "male") ∧
    (face.gender ≠ "male" →
      canvasGenderLabel face = "Mujer" ∧ detailsListGender face = "Mujer") ∧
    (toFaceData d).gender = "desconocido" ∧
    canvasGenderLabel (toFaceData d) = "Mujer" ∧
    detailsListGender (toFaceData d) = "Mujer" := by
  have hdg : (toFaceData d).gender = "desconocido" := by
    simp [toFaceData, hg]
  have hlab : ∀ f : FaceData,
      (canvasGenderLabel f = "Hombre" ↔ f.gender = "male") := by
    intro f
    unfold canvasGenderLabel
    by_cases h : f.gender = "male"
    · simp [h]
    · simp only [if_neg h]
      constructor
      · intro hme; exact absurd hme (by decide)
      · intro hcon; exact absurd hcon h
  have hlab' : ∀ f : FaceData,
      (detailsListGender f = "Hombre" ↔ f.gender = "male") := by
    intro f
    unfold detailsListGender
    by_cases h : f.gender = "male"
    · simp [h]
    · simp only [if_neg h]
      constructor
      · intro hme; exact absurd hme (by decide)
      · intro hcon; exact absurd hcon h
  refine ⟨hlab face, hlab' face, ?_, hdg, ?_, ?_⟩
  · intro hne
    exact ⟨by simp [canvasGenderLabel, if_neg hne],
           by simp [detailsListGender, if_neg hne]⟩
  · have : (toFaceData d).gender ≠ "male" := by
      rw [hdg]; decide
    simp [canvasGenderLabel, if_neg this]
  · have : (toFaceData d).gender ≠ "male" := by
      rw [hdg]; decide
    simp [detailsListGender, if_neg this]

/-- Witness for C10: the example male face is labelled `"Hombre"`; a
gender-less detection is stored as `"desconocido"` and displayed `"Mujer"`
in both places. -/
theorem genderDisplay_correct_witness :
    canvasGenderLabel (toFaceData exampleDetection) = "Hombre" ∧
    (toFaceData unknownGenderDetection).gender = "desconocido" ∧
    canvasGenderLabel (toFaceData unknownGenderDetection) = "Mujer" ∧
    detailsListGender (toFaceData unknownGenderDetection) = "Mujer" := by
  have h := genderDisplay_correct (toFaceData exampleDetection)
    unknownGenderDetection rfl
  exact ⟨h.1.mpr rfl, h.2.2.2.1, h.2.2.2.2.1, h.2.2.2.2.2⟩

end FaceDetector
